import Mathlib

/-!
# Verification of the garbage-truck tracking backend's proximity-alert core

Shallow embedding of the real-time tracking and proximity-alert core of the
FastAPI backend (app/services/location.py, app/services/alerts.py,
app/routes/trucks.py, app/routes/users.py, app/routes/websocket.py).

Conventions of the embedding:
* Python floats are modelled as rationals (`ℚ`); `int(x)` truncation and
  `round(x)` (banker's rounding) are modelled explicitly (`pyInt`, `pyRound`).
* Timestamps and calendar dates are abstract naturals.
* SQLAlchemy tables are lists of records; a query is a list traversal.
* The haversine distance between the truck snapshot and the user's home is a
  transcendental function of the coordinates; alert-decision functions take the
  computed distance as an explicit argument, exactly as the read-path function
  `get_alert_info_for_user` does in the source.
-/

namespace GarbageTruck

/-! ## Settings (app/config.py, defaults) -/

def DEFAULT_ALERT_DISTANCE : ℚ := 500

def ALERT_DISTANCE_APPROACHING : ℚ := 1000

def ALERT_DISTANCE_ARRIVING : ℚ := 500

def ALERT_DISTANCE_HERE : ℚ := 100

def AVG_TRUCK_SPEED : ℚ := 12

def TRAFFIC_PEAK_MULTIPLIER : ℚ := 3/2

def TRAFFIC_NORMAL_MULTIPLIER : ℚ := 6/5

/-! ## Python numeric conversions -/

/-- Python `int(x)`: truncation toward zero. -/
def pyInt (q : ℚ) : ℤ := if 0 ≤ q then ⌊q⌋ else ⌈q⌉

/-- Python `min(a, b)` on numbers. -/
def pymin (a b : ℚ) : ℚ := if a ≤ b then a else b

/-- Python `max(a, b)` on integers. -/
def pymax (a b : ℤ) : ℤ := if b ≤ a then a else b

/-- Python `round(x)` to an integer: round half to even. -/
def pyRound (q : ℚ) : ℤ :=
  if q - ⌊q⌋ < 1/2 then ⌊q⌋
  else if 1/2 < q - ⌊q⌋ then ⌊q⌋ + 1
  else if ⌊q⌋ % 2 = 0 then ⌊q⌋ else ⌊q⌋ + 1

/-! ## Data model (app/models.py) -/

/-- `User` row: identity, home coordinates, derived zone, alert preferences and
informational last-alert fields.  Display-only columns (name, phone, address)
are omitted. -/
structure User where
  id : ℕ
  zone_id : Option ℕ
  home_lat : Option ℚ
  home_lng : Option ℚ
  alert_enabled : Bool
  alert_distance : ℚ
  alert_type : String
  fcm_token : Option String
  last_alert_type : Option String
  last_alert_at : Option ℕ
  is_active : Bool
  deriving DecidableEq

/-- `Truck` row: assigned zone, duty flag and the cached live-state snapshot. -/
structure Truck where
  id : ℕ
  zone_id : Option ℕ
  is_active : Bool
  duty_started_at : Option ℕ
  last_lat : Option ℚ
  last_lng : Option ℚ
  last_speed : ℚ
  last_heading : ℚ
  last_update : Option ℕ
  deriving DecidableEq

/-- `AlertLog` row: the (user, truck, date, tier) deduplication record. -/
structure AlertLog where
  user_id : ℕ
  truck_id : ℕ
  alert_date : ℕ
  alert_type : String
  distance_meters : ℤ
  truck_lat : Option ℚ
  truck_lng : Option ℚ
  delivery_method : String
  delivered : Bool
  deriving DecidableEq

/-- `Zone` row: rectangular boundary and active flag (schedule columns omitted). -/
structure Zone where
  id : ℕ
  min_lat : ℚ
  min_lng : ℚ
  max_lat : ℚ
  max_lng : ℚ
  is_active : Bool
  deriving DecidableEq

/-- One GPS fix as submitted by the driver app (`LocationUpdate` schema). -/
structure Fix where
  lat : ℚ
  lng : ℚ
  speed : ℚ
  heading : ℚ
  accuracy : Option ℚ
  captured_at : ℕ
  deriving DecidableEq

/-- `TruckLocation` history row. -/
structure HistoryRow where
  truck_id : ℕ
  latitude : ℚ
  longitude : ℚ
  speed : ℚ
  heading : ℚ
  accuracy : Option ℚ
  captured_at : ℕ
  is_offline_sync : Bool
  deriving DecidableEq

/-! ## Truck status (app/services/location.py, determine_truck_status) -/

/-- The distance-based tail of `determine_truck_status`. -/
def distance_status (distance_meters : ℚ) : String :=
  if distance_meters < ALERT_DISTANCE_HERE then "here"
  else if distance_meters < ALERT_DISTANCE_ARRIVING then "arriving"
  else "approaching"

/-- `determine_truck_status(distance_meters, is_active, has_location,
previous_distance)` from app/services/location.py. -/
def determine_truck_status (distance_meters : ℚ) (is_active : Bool)
    (has_location : Bool) (previous_distance : Option ℚ) : String :=
  if !is_active then "offline"
  else if !has_location then "not_started"
  else
    match previous_distance with
    | some p =>
      if distance_meters > p + 50 then "passed" else distance_status distance_meters
    | none => distance_status distance_meters

/-! ## Alert decision (app/services/alerts.py) -/

/-- `priority_map.get(t, 0)` with `{"approaching": 1, "arriving": 2, "here": 3}`. -/
def priority_map (t : String) : ℕ :=
  if t = "approaching" then 1
  else if t = "arriving" then 2
  else if t = "here" then 3
  else 0

/-- The tier-selection block of `check_user_alert` (lines 66-82): the truck
status at the computed distance (the truck is active and has a fix at this
point of `check_user_alert`, so `is_active = true` and `has_location = true`),
then the threshold checks; the approaching tier is additionally gated by the
user's personal `alert_distance`. -/
def compute_alert_type (user : User) (distance : ℚ) : Option String :=
  let status := determine_truck_status distance true true none
  if status = "here" ∧ distance < ALERT_DISTANCE_HERE then some "here"
  else if status = "arriving" ∧ distance < ALERT_DISTANCE_ARRIVING then some "arriving"
  else if status = "approaching" ∧ distance < ALERT_DISTANCE_APPROACHING then
    if distance ≤ user.alert_distance then some "approaching" else none
  else none

/-- Does an `AlertLog` row match the exact (user, truck, today, tier) key? -/
def same_tier_today (user : User) (truck : Truck) (today : ℕ) (ty : String)
    (a : AlertLog) : Bool :=
  decide (a.user_id = user.id ∧ a.truck_id = truck.id ∧ a.alert_date = today ∧
    a.alert_type = ty)

/-- Does an `AlertLog` row belong to (user, truck, today)? -/
def today_entry (user : User) (truck : Truck) (today : ℕ) (a : AlertLog) : Bool :=
  decide (a.user_id = user.id ∧ a.truck_id = truck.id ∧ a.alert_date = today)

/-- The dict returned by `check_user_alert` when an alert fires (the display
`message` string is derived text and is omitted). -/
structure AlertInfo where
  user_id : ℕ
  truck_id : ℕ
  alert_type : String
  distance_meters : ℤ
  should_play_sound : Bool
  truck_lat : Option ℚ
  truck_lng : Option ℚ
  deriving DecidableEq

/-- `check_user_alert(db, user, truck)` from app/services/alerts.py, with the
haversine distance between the truck snapshot and the user's home supplied as
`distance` and `date.today()` as `today`.  `log` is the `AlertLog` table. -/
def check_user_alert (log : List AlertLog) (user : User) (truck : Truck)
    (distance : ℚ) (today : ℕ) : Option AlertInfo :=
  if !user.alert_enabled then none
  else if !truck.is_active ∨ truck.last_lat = none ∨ truck.last_lng = none then none
  else if user.home_lat = none ∨ user.home_lng = none then none
  else
    match compute_alert_type user distance with
    | none => none
    | some ty =>
      if log.filter (same_tier_today user truck today ty) ≠ [] then none
      else if (log.filter (today_entry user truck today)).any
          (fun a => decide (priority_map ty ≤ priority_map a.alert_type)) then none
      else some
        { user_id := user.id
          truck_id := truck.id
          alert_type := ty
          distance_meters := pyInt distance
          should_play_sound := decide (ty = "arriving" ∨ ty = "here")
          truck_lat := truck.last_lat
          truck_lng := truck.last_lng }

/-- `log_alert` from app/services/alerts.py: appends the dedup row and updates
the user's informational last-alert fields. -/
def log_alert (log : List AlertLog) (users : List User) (user_id truck_id : ℕ)
    (ty : String) (distance_meters : ℤ) (truck_lat truck_lng : Option ℚ)
    (delivery_method : String) (today now : ℕ) : List AlertLog × List User :=
  (log ++ [{ user_id := user_id, truck_id := truck_id, alert_date := today,
             alert_type := ty, distance_meters := distance_meters,
             truck_lat := truck_lat, truck_lng := truck_lng,
             delivery_method := delivery_method, delivered := true }],
   users.map (fun u =>
     if u.id = user_id then
       { u with last_alert_type := some ty, last_alert_at := some now }
     else u))

/-- One evaluation of the fix-ingestion alert path for one user
(`process_alerts` → `check_user_alert` → `send_alert` → `log_alert`):
if `check_user_alert` fires and delivery succeeds — or the user's preference is
sound-only, abstracted as the flag `delivered` — the alert is logged. -/
def alert_eval_step (st : List AlertLog × List User) (user : User) (truck : Truck)
    (distance : ℚ) (today now : ℕ) (delivered : Bool) :
    List AlertLog × List User :=
  match check_user_alert st.1 user truck distance today with
  | none => st
  | some info =>
    if delivered then
      log_alert st.1 st.2 info.user_id info.truck_id info.alert_type
        info.distance_meters info.truck_lat info.truck_lng "push" today now
    else st

/-- The dedup key of an `AlertLog` row. -/
def alert_key (a : AlertLog) : ℕ × ℕ × ℕ × String :=
  (a.user_id, a.truck_id, a.alert_date, a.alert_type)

/-- At most one `AlertLog` row per (user, truck, date, tier). -/
def dedup_inv (log : List AlertLog) : Prop :=
  log.Pairwise (fun a b => alert_key a ≠ alert_key b)

/-- The dict returned by the read-path `get_alert_info_for_user`. -/
structure ReadAlertInfo where
  should_alert : Bool
  alert_type : String
  distance_meters : ℤ
  play_sound : Bool
  deriving DecidableEq

/-- `get_alert_info_for_user(db, user, truck, distance_meters)` from
app/services/alerts.py: the read-only variant used by the tracking query and
the websocket push; performs only `AlertLog` queries, no writes. -/
def get_alert_info_for_user (log : List AlertLog) (user : User) (truck : Truck)
    (distance_meters : ℚ) (today : ℕ) : Option ReadAlertInfo :=
  if !user.alert_enabled then none
  else
    let status := determine_truck_status distance_meters truck.is_active
      truck.last_lat.isSome none
    let ty : Option String :=
      if status = "here" then some "here"
      else if status = "arriving" then some "arriving"
      else if status = "approaching" ∧ distance_meters ≤ user.alert_distance then
        some "approaching"
      else none
    match ty with
    | none => none
    | some ty =>
      let should_alert := (log.filter (same_tier_today user truck today ty)).isEmpty
      some
        { should_alert := should_alert
          alert_type := ty
          distance_meters := pyInt distance_meters
          play_sound := should_alert && decide (ty = "arriving" ∨ ty = "here") }

/-- One read-path evaluation as performed by the tracking query and websocket
push: `get_alert_info_for_user` only queries the `AlertLog` table (the source
performs no `db.add`/`db.commit`), so the log comes back unchanged next to the
computed display info. -/
def tracking_read_eval (log : List AlertLog) (user : User) (truck : Truck)
    (distance_meters : ℚ) (today : ℕ) :
    List AlertLog × Option ReadAlertInfo :=
  (log, get_alert_info_for_user log user truck distance_meters today)

/-! ## Duty start (app/routes/trucks.py, start_duty; app/services/alerts.py,
reset_zone_alerts) -/

/-- `reset_zone_alerts(db, zone_id)`: clears the informational last-alert
fields of every user of the zone. -/
def reset_zone_alerts (users : List User) (zone_id : ℕ) : List User :=
  users.map (fun u =>
    if u.zone_id = some zone_id then
      { u with last_alert_type := none, last_alert_at := none }
    else u)

/-- `start_duty(truck_id)` against an already-resolved truck: a no-op when the
truck is active; otherwise activates it, records duty start, and resets the
zone users' last-alert fields.  The `AlertLog` table is not touched. -/
def start_duty (truck : Truck) (users : List User) (now : ℕ) :
    Truck × List User :=
  if truck.is_active then (truck, users)
  else
    ({ truck with is_active := true, duty_started_at := some now },
     match truck.zone_id with
     | some z => reset_zone_alerts users z
     | none => users)

/-! ## Batch sync (app/routes/trucks.py, sync_offline_locations) -/

/-- Ordering of fixes by device-captured timestamp (the `sorted` key). -/
def fixLE (a b : Fix) : Prop := a.captured_at ≤ b.captured_at

instance : DecidableRel fixLE := fun a b =>
  inferInstanceAs (Decidable (a.captured_at ≤ b.captured_at))

instance : IsTotal Fix fixLE := ⟨fun a b => Nat.le_total a.captured_at b.captured_at⟩

instance : IsTrans Fix fixLE := ⟨fun _ _ _ => Nat.le_trans⟩

/-- `sync_offline_locations(truck_id, request)` against an already-resolved
truck: sorts the batch by captured timestamp, appends all rows to history
flagged offline-sync, folds the last sorted fix into the cached snapshot and
auto-activates duty.  (Per-row exceptions cannot arise on well-typed rows, so
`failed = 0`.)  Returns (truck', history', synced, failed). -/
def sync_offline_locations (truck : Truck) (history : List HistoryRow)
    (locations : List Fix) (now : ℕ) : Truck × List HistoryRow × ℕ × ℕ :=
  let sorted_locations := List.insertionSort fixLE locations
  let history' := history ++ sorted_locations.map (fun l =>
    { truck_id := truck.id, latitude := l.lat, longitude := l.lng,
      speed := l.speed, heading := l.heading, accuracy := l.accuracy,
      captured_at := l.captured_at, is_offline_sync := true })
  match sorted_locations.getLast? with
  | none => (truck, history', sorted_locations.length, 0)
  | some last =>
    let truck' := { truck with
      last_lat := some last.lat, last_lng := some last.lng,
      last_speed := last.speed, last_heading := last.heading,
      last_update := some now }
    (if truck.is_active then truck'
     else { truck' with is_active := true, duty_started_at := some now },
     history', sorted_locations.length, 0)

/-! ## ETA (app/services/location.py, get_traffic_multiplier / estimate_eta) -/

/-- `get_traffic_multiplier()` with `datetime.now().hour` passed explicitly. -/
def get_traffic_multiplier (hour : ℕ) : ℚ :=
  if 7 ≤ hour ∧ hour < 10 then TRAFFIC_PEAK_MULTIPLIER
  else if 17 ≤ hour ∧ hour < 20 then TRAFFIC_PEAK_MULTIPLIER
  else TRAFFIC_NORMAL_MULTIPLIER

/-- `estimate_eta(distance_meters, current_speed)` with the local hour and the
current clock time (in minutes) passed explicitly.  Returns the rounded minute
count and the arrival time `now + minutes`; the display strings are derived
text and are omitted. -/
def estimate_eta (distance_meters : ℚ) (current_speed : ℚ) (hour : ℕ)
    (now : ℕ) : ℤ × ℕ :=
  let avg_speed_kmh :=
    if current_speed > 3 then pymin (current_speed * (7/10)) 20
    else AVG_TRUCK_SPEED
  let traffic := get_traffic_multiplier hour
  let effective_speed := avg_speed_kmh / traffic
  let speed_m_per_min := effective_speed * 1000 / 60
  let minutes_q :=
    if speed_m_per_min > 0 then distance_meters / speed_m_per_min
    else distance_meters / 200
  let minutes := pymax 1 (pyRound minutes_q)
  (minutes, now + minutes.toNat)

/-! ## Connection registry (app/routes/websocket.py, ConnectionManager)

The three dicts are modelled as total functions; a missing key is the empty
set (for the set-valued dicts) or `none` (for `user_zone`), which agrees with
every membership test and default-read the source performs, because the source
deletes a key exactly when its set becomes empty. -/

structure Manager where
  user_connections : ℕ → Finset ℕ
  user_zone : ℕ → Option ℕ
  zone_users : ℕ → Finset ℕ

/-- The manager constructed by `ConnectionManager.__init__`. -/
def emptyManager : Manager :=
  { user_connections := fun _ => ∅, user_zone := fun _ => none,
    zone_users := fun _ => ∅ }

/-- `ConnectionManager.connect(websocket, user_id, zone_id)`. -/
def Manager.connect (m : Manager) (ws user_id zone_id : ℕ) : Manager :=
  { user_connections := fun u =>
      if u = user_id then insert ws (m.user_connections u)
      else m.user_connections u,
    user_zone := fun u => if u = user_id then some zone_id else m.user_zone u,
    zone_users := fun z =>
      if z = zone_id then insert user_id (m.zone_users z) else m.zone_users z }

/-- `ConnectionManager._remove_connection(websocket, user_id)`: used both by
`disconnect` and by the dead-socket pruning in `send_to_user`. -/
def Manager.removeConnection (m : Manager) (ws user_id : ℕ) : Manager :=
  if (m.user_connections user_id).Nonempty then
    let conns := (m.user_connections user_id).erase ws
    if conns = ∅ then
      { user_connections := fun u =>
          if u = user_id then ∅ else m.user_connections u,
        user_zone := fun u => if u = user_id then none else m.user_zone u,
        zone_users := fun z =>
          match m.user_zone user_id with
          | some zid =>
            if z = zid then (m.zone_users z).erase user_id else m.zone_users z
          | none => m.zone_users z }
    else
      { m with user_connections := fun u =>
          if u = user_id then conns else m.user_connections u }
  else m

/-- `ConnectionManager.get_zone_user_count(zone_id)`. -/
def Manager.get_zone_user_count (m : Manager) (zone_id : ℕ) : ℕ :=
  (m.zone_users zone_id).card

/-- A registry operation: `connect`, or `_remove_connection` (reached through
`disconnect` on close or through dead-socket pruning in `send_to_user`). -/
inductive RegistryOp where
  | connect (ws user_id zone_id : ℕ)
  | removeConn (ws user_id : ℕ)
  deriving DecidableEq

def applyOp (m : Manager) : RegistryOp → Manager
  | .connect ws uid zid => m.connect ws uid zid
  | .removeConn ws uid => m.removeConnection ws uid

def applyOps (m : Manager) (ops : List RegistryOp) : Manager :=
  ops.foldl applyOp m

/-- Every connect carries the zone the endpoint resolved for the user. -/
def validOps (zoneOf : ℕ → ℕ) (ops : List RegistryOp) : Prop :=
  ∀ op ∈ ops, ∀ ws uid zid, op = RegistryOp.connect ws uid zid → zid = zoneOf uid

/-- The registry consistency invariant, strengthened for induction: a user
with a live connection is registered under exactly the zone `zoneOf` resolved
for it; a fully disconnected user appears in no map. -/
def RegistryInv (zoneOf : ℕ → ℕ) (m : Manager) : Prop :=
  ∀ u : ℕ,
    ((m.user_connections u).Nonempty →
      m.user_zone u = some (zoneOf u) ∧
      ∀ z, (u ∈ m.zone_users z ↔ z = zoneOf u))
    ∧ (¬(m.user_connections u).Nonempty →
      m.user_zone u = none ∧ ∀ z, u ∉ m.zone_users z)

/-! ## Zone broadcast (app/routes/websocket.py, broadcast_truck_location) -/

/-- `broadcast_truck_location(truck_id, zone_id)`: returns whether the store
was accessed and the list of `location_update` messages, one `(user_id, ws)`
pair per connection the message was sent to.  Matches the source: the
zero-listener guard returns before any store access; otherwise the truck and
the zone's active users are read, users without a registered connection are
skipped, and `send_to_user` delivers to every connection of each remaining
user (all sends succeeding). -/
def broadcast_truck_location (m : Manager) (trucks : List Truck)
    (users : List User) (truck_id zone_id : ℕ) : Bool × List (ℕ × ℕ) :=
  if m.get_zone_user_count zone_id = 0 then (false, [])
  else
    match trucks.find? (fun t => t.id == truck_id) with
    | none => (true, [])
    | some _ =>
      (true,
       (users.filter (fun u => u.zone_id == some zone_id && u.is_active)).flatMap
         (fun u =>
           if m.user_connections u.id = ∅ then []
           else ((m.user_connections u.id).sort (· ≤ ·)).map (fun c => (u.id, c))))

/-! ## Zone auto-assignment (app/routes/users.py) -/

/-- `is_point_in_zone` from app/services/location.py (inclusive rectangle). -/
def is_point_in_zone (lat lng min_lat max_lat min_lng max_lng : ℚ) : Bool :=
  decide (min_lat ≤ lat ∧ lat ≤ max_lat ∧ min_lng ≤ lng ∧ lng ≤ max_lng)

/-- `find_zone_for_location(db, lat, lng)`: the first active zone whose
rectangle contains the point. -/
def find_zone_for_location (zones : List Zone) (lat lng : ℚ) : Option Zone :=
  (zones.filter (fun z => z.is_active)).find? (fun z =>
    is_point_in_zone lat lng z.min_lat z.max_lat z.min_lng z.max_lng)

/-- `register_user`: creates the user with the auto-assigned zone and the
model defaults (alert_enabled true, alert_distance 500, alert_type "push"). -/
def register_user (zones : List Zone) (uid : ℕ) (home_lat home_lng : ℚ) : User :=
  { id := uid
    zone_id := (find_zone_for_location zones home_lat home_lng).map Zone.id
    home_lat := some home_lat
    home_lng := some home_lng
    alert_enabled := true
    alert_distance := DEFAULT_ALERT_DISTANCE
    alert_type := "push"
    fcm_token := none
    last_alert_type := none
    last_alert_at := none
    is_active := true }

/-- `update_home_location`: updates home coordinates, re-assigns the zone, and
resets the last-alert fields exactly when the zone changed. -/
def update_home_location (user : User) (zones : List Zone)
    (home_lat home_lng : ℚ) : User :=
  let zone := find_zone_for_location zones home_lat home_lng
  let new_zone_id := zone.map Zone.id
  let u := { user with
    home_lat := some home_lat
    home_lng := some home_lng
    zone_id := new_zone_id }
  if user.zone_id ≠ new_zone_id then
    { u with last_alert_type := none, last_alert_at := none }
  else u

/-! ## Basic lemmas about status classification -/

lemma distance_status_eq_here {d : ℚ} : distance_status d = "here" ↔ d < 100 := by
  unfold distance_status ALERT_DISTANCE_HERE ALERT_DISTANCE_ARRIVING
  split_ifs with h1 h2 <;> simp_all

lemma distance_status_eq_arriving {d : ℚ} :
    distance_status d = "arriving" ↔ 100 ≤ d ∧ d < 500 := by
  unfold distance_status ALERT_DISTANCE_HERE ALERT_DISTANCE_ARRIVING
  split_ifs with h1 h2 <;> simp_all <;> try linarith

lemma distance_status_eq_approaching {d : ℚ} :
    distance_status d = "approaching" ↔ 500 ≤ d := by
  unfold distance_status ALERT_DISTANCE_HERE ALERT_DISTANCE_ARRIVING
  split_ifs with h1 h2 <;> simp_all <;> try linarith

lemma determine_active_fix (d : ℚ) :
    determine_truck_status d true true none = distance_status d := rfl

/-- Closed form of the tier-selection block of `check_user_alert`. -/
lemma compute_alert_type_spec (u : User) (d : ℚ) :
    compute_alert_type u d =
      if d < 100 then some "here"
      else if d < 500 then some "arriving"
      else if d < 1000 ∧ d ≤ u.alert_distance then some "approaching"
      else none := by
  unfold compute_alert_type
  rw [determine_active_fix]
  unfold ALERT_DISTANCE_HERE ALERT_DISTANCE_ARRIVING ALERT_DISTANCE_APPROACHING
  by_cases h1 : d < 100
  · simp [distance_status_eq_here.mpr h1, h1]
  · by_cases h2 : d < 500
    · simp [distance_status_eq_arriving.mpr ⟨le_of_not_lt h1, h2⟩, h1, h2]
    · have hs := distance_status_eq_approaching.mpr (le_of_not_lt h2)
      by_cases h3 : d < 1000
      · by_cases h4 : d ≤ u.alert_distance <;> simp [hs, h1, h2, h3, h4]
      · simp [hs, h1, h2, h3]

/-! ## C3 -/

/-- **C3.** `determine_truck_status` with no previous-distance sample follows
the precedence offline → not_started → here (< 100) → arriving (< 500) →
approaching, each upper boundary exclusive; in particular 50 ↦ here,
499 ↦ arriving, 500 ↦ approaching. -/
theorem C3_status_classification_precedence :
    (∀ (d : ℚ) (hasFix : Bool), determine_truck_status d false hasFix none = "offline")
    ∧ (∀ d : ℚ, determine_truck_status d true false none = "not_started")
    ∧ (∀ d : ℚ, d < 100 → determine_truck_status d true true none = "here")
    ∧ (∀ d : ℚ, 100 ≤ d → d < 500 → determine_truck_status d true true none = "arriving")
    ∧ (∀ d : ℚ, 500 ≤ d → determine_truck_status d true true none = "approaching")
    ∧ determine_truck_status 50 true true none = "here"
    ∧ determine_truck_status 499 true true none = "arriving"
    ∧ determine_truck_status 500 true true none = "approaching" := by
  refine ⟨fun d hf => rfl, fun d => rfl, ?_, ?_, ?_, by decide, by decide, by decide⟩
  · intro d h
    rw [determine_active_fix]
    exact distance_status_eq_here.mpr h
  · intro d h1 h2
    rw [determine_active_fix]
    exact distance_status_eq_arriving.mpr ⟨h1, h2⟩
  · intro d h
    rw [determine_active_fix]
    exact distance_status_eq_approaching.mpr h

/-- Witness for C3 at concrete inputs. -/
theorem C3_status_classification_precedence_witness :
    determine_truck_status 99 true true none = "here" ∧
    determine_truck_status 100 true true none = "arriving" ∧
    determine_truck_status 750 true true none = "approaching" :=
  ⟨C3_status_classification_precedence.2.2.1 99 (by norm_num),
   C3_status_classification_precedence.2.2.2.1 100 (by norm_num) (by norm_num),
   C3_status_classification_precedence.2.2.2.2.1 750 (by norm_num)⟩

/-! ## C2 -/

lemma bool_not_eq_true_of_eq_false {b : Bool} (h : b = false) : (!b) = true := by
  simp [h]

lemma check_user_alert_none_of_disabled (log : List AlertLog) (u : User)
    (t : Truck) (d : ℚ) (today : ℕ) (h : u.alert_enabled = false) :
    check_user_alert log u t d today = none := by
  unfold check_user_alert
  rw [if_pos (bool_not_eq_true_of_eq_false h)]

lemma check_user_alert_none_of_no_fix (log : List AlertLog) (u : User)
    (t : Truck) (d : ℚ) (today : ℕ)
    (h : t.is_active = false ∨ t.last_lat = none ∨ t.last_lng = none) :
    check_user_alert log u t d today = none := by
  unfold check_user_alert
  by_cases g1 : (!u.alert_enabled) = true
  · rw [if_pos g1]
  · rw [if_neg g1, if_pos]
    rcases h with h | h | h
    · exact Or.inl (bool_not_eq_true_of_eq_false h)
    · exact Or.inr (Or.inl h)
    · exact Or.inr (Or.inr h)

lemma check_user_alert_none_of_no_home (log : List AlertLog) (u : User)
    (t : Truck) (d : ℚ) (today : ℕ)
    (h : u.home_lat = none ∨ u.home_lng = none) :
    check_user_alert log u t d today = none := by
  unfold check_user_alert
  by_cases g1 : (!u.alert_enabled) = true
  · rw [if_pos g1]
  · rw [if_neg g1]
    by_cases g2 : ((!t.is_active) = true ∨ t.last_lat = none ∨ t.last_lng = none)
    · rw [if_pos g2]
    · rw [if_neg g2, if_pos h]

lemma check_user_alert_none_of_no_tier (log : List AlertLog) (u : User)
    (t : Truck) (d : ℚ) (today : ℕ) (h : compute_alert_type u d = none) :
    check_user_alert log u t d today = none := by
  unfold check_user_alert
  by_cases g1 : (!u.alert_enabled) = true
  · rw [if_pos g1]
  · rw [if_neg g1]
    by_cases g2 : ((!t.is_active) = true ∨ t.last_lat = none ∨ t.last_lng = none)
    · rw [if_pos g2]
    · rw [if_neg g2]
      by_cases g3 : (u.home_lat = none ∨ u.home_lng = none)
      · rw [if_pos g3]
      · rw [if_neg g3, h]

/-- **C2.** Alert preconditions and tier selection in `check_user_alert`:
disabled alerts, an off-duty truck, a missing fix, or missing home
coordinates yield no alert; otherwise the tier is here for distance < 100,
arriving for 100 ≤ distance < 500, approaching for 500 ≤ distance < 1000 and
distance ≤ the user's `alert_distance` (only the approaching tier looks at
the preference); a distance qualifying for no tier yields no alert. -/
theorem C2_alert_preconditions_and_tier_selection :
    (∀ (log : List AlertLog) (u : User) (t : Truck) (d : ℚ) (today : ℕ),
      u.alert_enabled = false → check_user_alert log u t d today = none)
    ∧ (∀ (log : List AlertLog) (u : User) (t : Truck) (d : ℚ) (today : ℕ),
      t.is_active = false ∨ t.last_lat = none ∨ t.last_lng = none →
      check_user_alert log u t d today = none)
    ∧ (∀ (log : List AlertLog) (u : User) (t : Truck) (d : ℚ) (today : ℕ),
      u.home_lat = none ∨ u.home_lng = none →
      check_user_alert log u t d today = none)
    ∧ (∀ (u : User) (d : ℚ), compute_alert_type u d = some "here" ↔ d < 100)
    ∧ (∀ (u : User) (d : ℚ), compute_alert_type u d = some "arriving" ↔
        100 ≤ d ∧ d < 500)
    ∧ (∀ (u : User) (d : ℚ), compute_alert_type u d = some "approaching" ↔
        500 ≤ d ∧ d < 1000 ∧ d ≤ u.alert_distance)
    ∧ (∀ (log : List AlertLog) (u : User) (t : Truck) (d : ℚ) (today : ℕ),
      compute_alert_type u d = none → check_user_alert log u t d today = none) := by
  refine ⟨check_user_alert_none_of_disabled, check_user_alert_none_of_no_fix,
    check_user_alert_none_of_no_home, ?_, ?_, ?_, check_user_alert_none_of_no_tier⟩
  · intro u d
    rw [compute_alert_type_spec]
    split_ifs with h1 h2 h3
    · exact iff_of_true rfl h1
    · exact iff_of_false (by decide) h1
    · exact iff_of_false (by decide) h1
    · exact iff_of_false (by decide) h1
  · intro u d
    rw [compute_alert_type_spec]
    split_ifs with h1 h2 h3
    · exact iff_of_false (by decide) (by rintro ⟨h, -⟩; linarith)
    · exact iff_of_true rfl ⟨le_of_not_lt h1, h2⟩
    · exact iff_of_false (by decide) (by rintro ⟨-, h⟩; exact h2 h)
    · exact iff_of_false (by decide) (by rintro ⟨-, h⟩; exact h2 h)
  · intro u d
    rw [compute_alert_type_spec]
    split_ifs with h1 h2 h3
    · exact iff_of_false (by decide) (by rintro ⟨h, -⟩; linarith)
    · exact iff_of_false (by decide) (by rintro ⟨h, -⟩; linarith)
    · exact iff_of_true rfl ⟨le_of_not_lt h2, h3⟩
    · exact iff_of_false (by decide) (by rintro ⟨-, h⟩; exact h3 h)

/-! ## C1 -/

lemma check_user_alert_eq_of_pass (log : List AlertLog) (u : User) (t : Truck)
    (d : ℚ) (today : ℕ) (g1 : u.alert_enabled = true) (g2 : t.is_active = true)
    (g3 : t.last_lat ≠ none) (g4 : t.last_lng ≠ none)
    (g5 : u.home_lat ≠ none) (g6 : u.home_lng ≠ none) :
    check_user_alert log u t d today =
      match compute_alert_type u d with
      | none => none
      | some ty =>
        if log.filter (same_tier_today u t today ty) ≠ [] then none
        else if (log.filter (today_entry u t today)).any
            (fun a => decide (priority_map ty ≤ priority_map a.alert_type)) then none
        else some
          { user_id := u.id
            truck_id := t.id
            alert_type := ty
            distance_meters := pyInt d
            should_play_sound := decide (ty = "arriving" ∨ ty = "here")
            truck_lat := t.last_lat
            truck_lng := t.last_lng } := by
  unfold check_user_alert
  rw [if_neg (by simp [g1]), if_neg (by simp [g2, g3, g4]), if_neg (by simp [g5, g6])]

lemma bool_eq_true_of_not_eq_false {b : Bool} (h : ¬b = false) : b = true := by
  cases b
  · exact absurd rfl h
  · rfl

lemma check_user_alert_some_inv {log : List AlertLog} {u : User} {t : Truck}
    {d : ℚ} {today : ℕ} {info : AlertInfo}
    (h : check_user_alert log u t d today = some info) :
    ∃ ty, compute_alert_type u d = some ty ∧
      info.user_id = u.id ∧ info.truck_id = t.id ∧ info.alert_type = ty ∧
      log.filter (same_tier_today u t today ty) = [] ∧
      u.alert_enabled = true ∧ t.is_active = true ∧ t.last_lat ≠ none := by
  unfold check_user_alert at h
  split_ifs at h with ga gb gc <;> try exact Option.noConfusion h
  have g1 : u.alert_enabled = true := by
    cases hb : u.alert_enabled
    · exact absurd (by simp [hb]) ga
    · rfl
  have g2 : t.is_active = true := by
    cases hb : t.is_active
    · exact absurd (Or.inl (by simp [hb])) gb
    · rfl
  have g3 : t.last_lat ≠ none := fun hb => gb (Or.inr (Or.inl hb))
  cases hty : compute_alert_type u d with
  | none => rw [hty] at h; exact Option.noConfusion h
  | some ty =>
    rw [hty] at h
    dsimp only at h
    split_ifs at h with hfil hany <;> try exact Option.noConfusion h
    push_neg at hfil
    obtain rfl : _ = info := Option.some.inj h
    exact ⟨ty, rfl, rfl, rfl, rfl, hfil, g1, g2, g3⟩

/-- Same-day suppression: whenever a log row at this-or-higher priority exists
for (user, truck, today), `check_user_alert` fires nothing. -/
lemma check_user_alert_none_of_higher {log : List AlertLog} {u : User}
    {t : Truck} {d : ℚ} {today : ℕ} {ty : String}
    (hty : compute_alert_type u d = some ty)
    (h : ∃ a ∈ log, a.user_id = u.id ∧ a.truck_id = t.id ∧ a.alert_date = today ∧
      priority_map ty ≤ priority_map a.alert_type) :
    check_user_alert log u t d today = none := by
  by_cases g1 : u.alert_enabled = false
  · exact check_user_alert_none_of_disabled _ _ _ _ _ g1
  by_cases g2 : t.is_active = false ∨ t.last_lat = none ∨ t.last_lng = none
  · exact check_user_alert_none_of_no_fix _ _ _ _ _ g2
  by_cases g3 : u.home_lat = none ∨ u.home_lng = none
  · exact check_user_alert_none_of_no_home _ _ _ _ _ g3
  push_neg at g2 g3
  rw [check_user_alert_eq_of_pass log u t d today
    (bool_eq_true_of_not_eq_false g1) (bool_eq_true_of_not_eq_false g2.1)
    g2.2.1 g2.2.2 g3.1 g3.2, hty]
  dsimp only
  obtain ⟨a, ha, h1, h2, h3, h4⟩ := h
  have hany : (log.filter (today_entry u t today)).any
      (fun a => decide (priority_map ty ≤ priority_map a.alert_type)) = true := by
    refine List.any_eq_true.mpr ⟨a, List.mem_filter.mpr ⟨ha, ?_⟩, by simpa using h4⟩
    simp [today_entry, h1, h2, h3]
  by_cases hfil : log.filter (same_tier_today u t today ty) ≠ []
  · rw [if_pos hfil]
  · rw [if_neg hfil, if_pos hany]

/-- When the tier qualifies, all preconditions pass, and no (user, truck,
today) row exists, `check_user_alert` fires. -/
lemma check_user_alert_fires (log : List AlertLog) (u : User) (t : Truck)
    (d : ℚ) (today : ℕ) (ty : String)
    (g1 : u.alert_enabled = true) (g2 : t.is_active = true)
    (g3 : t.last_lat ≠ none) (g4 : t.last_lng ≠ none)
    (g5 : u.home_lat ≠ none) (g6 : u.home_lng ≠ none)
    (hty : compute_alert_type u d = some ty)
    (hclean : ∀ a ∈ log,
      ¬(a.user_id = u.id ∧ a.truck_id = t.id ∧ a.alert_date = today)) :
    check_user_alert log u t d today = some
      { user_id := u.id
        truck_id := t.id
        alert_type := ty
        distance_meters := pyInt d
        should_play_sound := decide (ty = "arriving" ∨ ty = "here")
        truck_lat := t.last_lat
        truck_lng := t.last_lng } := by
  rw [check_user_alert_eq_of_pass log u t d today g1 g2 g3 g4 g5 g6, hty]
  dsimp only
  have hfil : log.filter (same_tier_today u t today ty) = [] := by
    refine List.filter_eq_nil_iff.mpr (fun a ha => ?_)
    simp only [same_tier_today, decide_eq_true_eq]
    intro ⟨h1, h2, h3, _⟩
    exact hclean a ha ⟨h1, h2, h3⟩
  have hany : (log.filter (today_entry u t today)).any
      (fun a => decide (priority_map ty ≤ priority_map a.alert_type)) = false := by
    have : log.filter (today_entry u t today) = [] := by
      refine List.filter_eq_nil_iff.mpr (fun a ha => ?_)
      simp only [today_entry, decide_eq_true_eq]
      exact hclean a ha
    simp [this]
  rw [if_neg (by simp [hfil]), if_neg (by simp [hany])]

/-- The row appended by the fix-ingestion path when an alert fires. -/
lemma alert_eval_step_of_fires (st : List AlertLog × List User) {u : User}
    {t : Truck} {d : ℚ} {today now : ℕ} {info : AlertInfo}
    (h : check_user_alert st.1 u t d today = some info) :
    alert_eval_step st u t d today now true =
      (st.1 ++ [{ user_id := info.user_id, truck_id := info.truck_id,
                  alert_date := today, alert_type := info.alert_type,
                  distance_meters := info.distance_meters,
                  truck_lat := info.truck_lat, truck_lng := info.truck_lng,
                  delivery_method := "push", delivered := true }],
       st.2.map (fun v =>
         if v.id = info.user_id then
           { v with last_alert_type := some info.alert_type,
                    last_alert_at := some now }
         else v)) := by
  unfold alert_eval_step
  rw [h]
  rfl

lemma alert_eval_step_dedup (st : List AlertLog × List User) (u : User)
    (t : Truck) (d : ℚ) (today now : ℕ) (delivered : Bool)
    (h : dedup_inv st.1) :
    dedup_inv (alert_eval_step st u t d today now delivered).1 := by
  unfold alert_eval_step
  cases hc : check_user_alert st.1 u t d today with
  | none => exact h
  | some info =>
    cases delivered with
    | false => exact h
    | true =>
      obtain ⟨ty, hty, hu, ht, hat, hfil, -, -, -⟩ := check_user_alert_some_inv hc
      simp only [log_alert]
      refine List.pairwise_append.mpr ⟨h, List.pairwise_singleton _ _, ?_⟩
      intro a ha b hb
      obtain rfl : b = _ := List.mem_singleton.mp hb
      simp only [alert_key, ne_eq, Prod.mk.injEq, not_and]
      intro e1 e2 e3 e4
      have : same_tier_today u t today ty a = true := by
        simp [same_tier_today, e1, hu, e2, ht, e3, e4, hat]
      have hmem : a ∈ st.1.filter (same_tier_today u t today ty) :=
        List.mem_filter.mpr ⟨ha, this⟩
      rw [hfil] at hmem
      exact absurd hmem (List.not_mem_nil a)

/-- **C1.** Alert deduplication and tier monotonicity: an evaluation fires
nothing when a (user, truck, today) row of equal-or-higher priority exists;
the fix-ingestion step preserves "at most one row per (user, truck, date,
tier)"; and any positive number of repeated evaluations at one qualifying
distance starting from a day with no rows creates exactly one
(user, truck, today) row. -/
theorem C1_alert_dedup_and_tier_monotonicity :
    (∀ (log : List AlertLog) (u : User) (t : Truck) (d : ℚ) (today : ℕ)
      (ty : String), compute_alert_type u d = some ty →
      (∃ a ∈ log, a.user_id = u.id ∧ a.truck_id = t.id ∧ a.alert_date = today ∧
        priority_map ty ≤ priority_map a.alert_type) →
      check_user_alert log u t d today = none)
    ∧ (∀ (st : List AlertLog × List User) (u : User) (t : Truck) (d : ℚ)
      (today now : ℕ) (delivered : Bool), dedup_inv st.1 →
      dedup_inv (alert_eval_step st u t d today now delivered).1)
    ∧ (∀ (log : List AlertLog) (users : List User) (u : User) (t : Truck)
      (d : ℚ) (today now n : ℕ), 0 < n →
      u.alert_enabled = true → t.is_active = true →
      t.last_lat ≠ none → t.last_lng ≠ none →
      u.home_lat ≠ none → u.home_lng ≠ none →
      (compute_alert_type u d).isSome →
      (∀ a ∈ log, ¬(a.user_id = u.id ∧ a.truck_id = t.id ∧ a.alert_date = today)) →
      (((fun st => alert_eval_step st u t d today now true)^[n]
          (log, users)).1.countP (today_entry u t today)) = 1) := by
  refine ⟨fun log u t d today ty hty h => check_user_alert_none_of_higher hty h,
    alert_eval_step_dedup, ?_⟩
  intro log users u t d today now n hn g1 g2 g3 g4 g5 g6 hty' hclean
  obtain ⟨ty, hty⟩ := Option.isSome_iff_exists.mp hty'
  obtain ⟨m, rfl⟩ : ∃ m, n = m + 1 := ⟨n - 1, (Nat.succ_pred_eq_of_pos hn).symm⟩
  rw [Function.iterate_succ_apply]
  have hfire := check_user_alert_fires log u t d today ty g1 g2 g3 g4 g5 g6 hty hclean
  rw [alert_eval_step_of_fires (log, users) hfire]
  set e : AlertLog :=
    { user_id := u.id, truck_id := t.id, alert_date := today, alert_type := ty,
      distance_meters := pyInt d, truck_lat := t.last_lat,
      truck_lng := t.last_lng, delivery_method := "push", delivered := true }
    with he
  have hfix : ∀ us : List User,
      alert_eval_step (log ++ [e], us) u t d today now true = (log ++ [e], us) := by
    intro us
    unfold alert_eval_step
    rw [check_user_alert_none_of_higher hty
      ⟨e, by simp [he], by simp [he]⟩]
  rw [Function.iterate_fixed (hfix _) m]
  rw [List.countP_append]
  have h0 : log.countP (today_entry u t today) = 0 := by
    rw [List.countP_eq_zero]
    intro a ha
    simpa [today_entry] using hclean a ha
  rw [h0]
  simp [today_entry, he]

/-- Witness for C1 at concrete inputs: one qualifying evaluation repeated
three times on an empty log creates exactly one row, and the suppression and
invariant-preservation conjuncts hold there. -/
theorem C1_alert_dedup_and_tier_monotonicity_witness :
    (((fun st => alert_eval_step st
        ⟨1, some 1, some 0, some 0, true, 500, "push", none, none, none, true⟩
        ⟨1, some 1, true, some 2, some 0, some 0, 0, 0, some 2⟩
        80 7 9 true)^[3] ([], [])).1.countP
      (today_entry
        ⟨1, some 1, some 0, some 0, true, 500, "push", none, none, none, true⟩
        ⟨1, some 1, true, some 2, some 0, some 0, 0, 0, some 2⟩ 7)) = 1 :=
  C1_alert_dedup_and_tier_monotonicity.2.2 [] []
    ⟨1, some 1, some 0, some 0, true, 500, "push", none, none, none, true⟩
    ⟨1, some 1, true, some 2, some 0, some 0, 0, 0, some 2⟩
    80 7 9 3 (by norm_num) rfl rfl (by simp) (by simp) (by simp) (by simp)
    (by decide) (by simp)

/-! ## C4 -/

/-- **C4 counterexample.** The read path and the write path disagree: with a
"here" row already logged for (user 1, truck 1, day 7) and the truck now 300 m
away (tier arriving), `check_user_alert` fires nothing (same-day
higher-priority suppression) while the read-path `get_alert_info_for_user`
reports `should_alert = true` — so "should_alert = true exactly when
check_user_alert would fire" is false at this state. -/
theorem C4_read_write_equivalence_counterexample :
    check_user_alert [⟨1, 1, 7, "here", 80, some 0, some 0, "push", true⟩]
      ⟨1, some 1, some 0, some 0, true, 500, "sound", none, some "here", some 3, true⟩
      ⟨1, some 1, true, some 2, some 0, some 0, 0, 0, some 2⟩ 300 7 = none
    ∧ get_alert_info_for_user [⟨1, 1, 7, "here", 80, some 0, some 0, "push", true⟩]
      ⟨1, some 1, some 0, some 0, true, 500, "sound", none, some "here", some 3, true⟩
      ⟨1, some 1, true, some 2, some 0, some 0, 0, 0, some 2⟩ 300 7
      = some ⟨true, "arriving", 300, true⟩ :=
  ⟨by decide, by decide⟩

/-- **C4 (amended).** The read path performs no write (the log passes through
unchanged), and whenever `check_user_alert` fires, the read path reports
`should_alert = true` with the same tier.  The converse direction of the
original claim fails (see the counterexample): the read path omits the 1000 m
approaching ceiling and the same-day higher-priority suppression. -/
theorem C4_read_path_covers_write_path :
    (∀ (log : List AlertLog) (u : User) (t : Truck) (d : ℚ) (today : ℕ),
      (tracking_read_eval log u t d today).1 = log)
    ∧ (∀ (log : List AlertLog) (u : User) (t : Truck) (d : ℚ) (today : ℕ)
        (info : AlertInfo), check_user_alert log u t d today = some info →
      ∃ ri, get_alert_info_for_user log u t d today = some ri ∧
        ri.should_alert = true ∧ ri.alert_type = info.alert_type) := by
  refine ⟨fun log u t d today => rfl, ?_⟩
  intro log u t d today info h
  obtain ⟨ty, hty, hu, ht, hat, hfil, g1, g2, g3⟩ := check_user_alert_some_inv h
  have hsome : t.last_lat.isSome = true := Option.ne_none_iff_isSome.mp g3
  have hread : get_alert_info_for_user log u t d today =
      some { should_alert := (log.filter (same_tier_today u t today ty)).isEmpty,
             alert_type := ty, distance_meters := pyInt d,
             play_sound := (log.filter (same_tier_today u t today ty)).isEmpty &&
               decide (ty = "arriving" ∨ ty = "here") } := by
    unfold get_alert_info_for_user
    rw [compute_alert_type_spec] at hty
    split_ifs at hty with h1 h2 h3
    · obtain rfl := Option.some.inj hty
      simp [g1, g2, hsome, determine_active_fix, distance_status_eq_here.mpr h1]
    · obtain rfl := Option.some.inj hty
      simp [g1, g2, hsome, determine_active_fix,
        distance_status_eq_arriving.mpr ⟨le_of_not_lt h1, h2⟩]
    · obtain rfl := Option.some.inj hty
      simp [g1, g2, hsome, determine_active_fix,
        distance_status_eq_approaching.mpr (le_of_not_lt h2), h3.2]
  refine ⟨_, hread, ?_, hat.symm⟩
  simp [hfil]

/-- Witness for the amended C4 at a concrete input. -/
theorem C4_read_path_covers_write_path_witness :
    (tracking_read_eval []
      ⟨1, some 1, some 0, some 0, true, 500, "push", none, none, none, true⟩
      ⟨1, some 1, true, some 2, some 0, some 0, 0, 0, some 2⟩ 80 7).1 = []
    ∧ (∃ ri, get_alert_info_for_user []
        ⟨1, some 1, some 0, some 0, true, 500, "push", none, none, none, true⟩
        ⟨1, some 1, true, some 2, some 0, some 0, 0, 0, some 2⟩ 80 7 = some ri ∧
        ri.should_alert = true ∧
        ri.alert_type = (⟨1, 1, "here", 80, true, some 0, some 0⟩ : AlertInfo).alert_type) :=
  ⟨C4_read_path_covers_write_path.1 [] _ _ 80 7,
   C4_read_path_covers_write_path.2 []
     ⟨1, some 1, some 0, some 0, true, 500, "push", none, none, none, true⟩
     ⟨1, some 1, true, some 2, some 0, some 0, 0, 0, some 2⟩ 80 7
     ⟨1, 1, "here", 80, true, some 0, some 0⟩ (by decide)⟩

/-! ## C5 -/

/-- **C5 counterexample.** Starting duty resets the zone users' informational
last-alert fields (first conjunct), but does not clear `AlertLog` rows: with a
"here" row already logged for (user 1, truck 1, day 7), an evaluation after
`start_duty` at the qualifying distance 50 m still yields no alert (second
conjunct), refuting "fires again even if an alert of the same or higher tier
was already logged". -/
theorem C5_duty_start_counterexample :
    (start_duty ⟨1, some 1, false, none, some 0, some 0, 0, 0, none⟩
      [⟨1, some 1, some 0, some 0, true, 500, "sound", none, some "here", some 3, true⟩] 5).2
      = [⟨1, some 1, some 0, some 0, true, 500, "sound", none, none, none, true⟩]
    ∧ check_user_alert [⟨1, 1, 7, "here", 80, some 0, some 0, "push", true⟩]
      ⟨1, some 1, some 0, some 0, true, 500, "sound", none, none, none, true⟩
      (start_duty ⟨1, some 1, false, none, some 0, some 0, 0, 0, none⟩
        [⟨1, some 1, some 0, some 0, true, 500, "sound", none, some "here", some 3, true⟩] 5).1
      50 7 = none :=
  ⟨by decide, by decide⟩

/-- **C5 (amended).** `start_duty` on an inactive truck with an assigned zone
activates it, records duty start, and resets only the informational last-alert
fields of the zone's users; the `AlertLog` table is untouched, so a
same-or-higher-tier row already logged for (user, truck, today) still
suppresses the alert decision after the duty start. -/
theorem C5_duty_start_resets_info_fields_only :
    ∀ (truck : Truck) (users : List User) (now z : ℕ),
      truck.is_active = false → truck.zone_id = some z →
      (start_duty truck users now).1.is_active = true ∧
      (start_duty truck users now).1.duty_started_at = some now ∧
      (∀ v ∈ (start_duty truck users now).2, v.zone_id = some z →
        v.last_alert_type = none ∧ v.last_alert_at = none) ∧
      (∀ (log : List AlertLog) (v : User) (d : ℚ) (today : ℕ) (ty : String),
        compute_alert_type v d = some ty →
        (∃ a ∈ log, a.user_id = v.id ∧
          a.truck_id = (start_duty truck users now).1.id ∧
          a.alert_date = today ∧ priority_map ty ≤ priority_map a.alert_type) →
        check_user_alert log v (start_duty truck users now).1 d today = none) := by
  intro truck users now z hact hz
  have hsd : start_duty truck users now =
      ({ truck with is_active := true, duty_started_at := some now },
       reset_zone_alerts users z) := by
    unfold start_duty
    rw [if_neg (by simp [hact]), hz]
  refine ⟨by rw [hsd], by rw [hsd], ?_, ?_⟩
  · intro v hv hvz
    rw [hsd] at hv
    obtain ⟨u0, hu0, rfl⟩ := List.mem_map.mp hv
    by_cases h : u0.zone_id = some z
    · simp [h]
    · rw [if_neg h] at hvz ⊢
      exact absurd hvz h
  · intro log v d today ty hty hex
    exact check_user_alert_none_of_higher hty hex

/-- Witness for the amended C5 at a concrete input. -/
theorem C5_duty_start_resets_info_fields_only_witness :
    ((start_duty ⟨1, some 1, false, none, some 0, some 0, 0, 0, none⟩ [] 5).1.is_active = true) ∧
    ((start_duty ⟨1, some 1, false, none, some 0, some 0, 0, 0, none⟩ [] 5).1.duty_started_at = some 5) :=
  ⟨(C5_duty_start_resets_info_fields_only
      ⟨1, some 1, false, none, some 0, some 0, 0, 0, none⟩ [] 5 1 rfl rfl).1,
   (C5_duty_start_resets_info_fields_only
      ⟨1, some 1, false, none, some 0, some 0, 0, 0, none⟩ [] 5 1 rfl rfl).2.1⟩

/-! ## C6 -/

lemma sorted_getLast_max :
    ∀ (l : List Fix) (h : l ≠ []), List.Sorted fixLE l →
      ∀ g ∈ l, g.captured_at ≤ (l.getLast h).captured_at := by
  intro l
  induction l with
  | nil => intro h; exact absurd rfl h
  | cons a l ih =>
    intro h hs g hg
    cases l with
    | nil =>
      obtain rfl : g = a := by simpa using hg
      simp [List.getLast]
    | cons b l2 =>
      rw [List.getLast_cons (by simp)]
      rcases List.mem_cons.mp hg with rfl | hg2
      · exact (List.sorted_cons.mp hs).1 _ (List.getLast_mem (by simp))
      · exact ih (by simp) (List.sorted_cons.mp hs).2 g hg2

lemma sync_offline_locations_eval (truck : Truck) (history : List HistoryRow)
    (locs : List Fix) (now : ℕ) (hne : List.insertionSort fixLE locs ≠ []) :
    sync_offline_locations truck history locs now =
      ((if truck.is_active then
          { truck with
            last_lat := some ((List.insertionSort fixLE locs).getLast hne).lat,
            last_lng := some ((List.insertionSort fixLE locs).getLast hne).lng,
            last_speed := ((List.insertionSort fixLE locs).getLast hne).speed,
            last_heading := ((List.insertionSort fixLE locs).getLast hne).heading,
            last_update := some now }
        else
          { truck with
            last_lat := some ((List.insertionSort fixLE locs).getLast hne).lat,
            last_lng := some ((List.insertionSort fixLE locs).getLast hne).lng,
            last_speed := ((List.insertionSort fixLE locs).getLast hne).speed,
            last_heading := ((List.insertionSort fixLE locs).getLast hne).heading,
            last_update := some now, is_active := true,
            duty_started_at := some now }),
       history ++ (List.insertionSort fixLE locs).map (fun l =>
         { truck_id := truck.id, latitude := l.lat, longitude := l.lng,
           speed := l.speed, heading := l.heading, accuracy := l.accuracy,
           captured_at := l.captured_at, is_offline_sync := true }),
       (List.insertionSort fixLE locs).length, 0) := by
  simp only [sync_offline_locations]
  rw [List.getLast?_eq_getLast_of_ne_nil hne]

lemma insertionSort_ne_nil {locs : List Fix} (h : locs ≠ []) :
    List.insertionSort fixLE locs ≠ [] := by
  intro hnil
  apply h
  have hlen := List.length_insertionSort fixLE locs
  rw [hnil] at hlen
  exact List.length_eq_zero.mp hlen.symm

/-- **C6.** Batch sync sorts the submitted fixes by device-captured timestamp
(the appended history block is sorted by `captured_at` and is a permutation of
the batch), updates the cached snapshot from a fix of the batch whose captured
timestamp is maximal, auto-activates an off-duty truck with duty start = now,
and on the concrete out-of-order batch with timestamps [5, 1, 3] the snapshot
takes the t=5 fix's values. -/
theorem C6_batch_sync_snapshot_policy :
    (∀ (truck : Truck) (history : List HistoryRow) (locs : List Fix) (now : ℕ),
      locs ≠ [] →
      ∃ f ∈ locs, (∀ g ∈ locs, g.captured_at ≤ f.captured_at) ∧
        (sync_offline_locations truck history locs now).1.last_lat = some f.lat ∧
        (sync_offline_locations truck history locs now).1.last_lng = some f.lng ∧
        (sync_offline_locations truck history locs now).1.last_speed = f.speed ∧
        (sync_offline_locations truck history locs now).1.last_heading = f.heading ∧
        (sync_offline_locations truck history locs now).1.last_update = some now)
    ∧ (∀ (truck : Truck) (history : List HistoryRow) (locs : List Fix) (now : ℕ),
        truck.is_active = false → locs ≠ [] →
        (sync_offline_locations truck history locs now).1.is_active = true ∧
        (sync_offline_locations truck history locs now).1.duty_started_at = some now)
    ∧ (∀ (truck : Truck) (history : List HistoryRow) (locs : List Fix) (now : ℕ),
        List.Sorted (· ≤ ·)
          ((((sync_offline_locations truck history locs now).2.1).drop
            history.length).map HistoryRow.captured_at) ∧
        List.Perm
          ((((sync_offline_locations truck history locs now).2.1).drop
            history.length).map HistoryRow.captured_at)
          (locs.map Fix.captured_at))
    ∧ (sync_offline_locations ⟨1, some 1, false, none, none, none, 0, 0, none⟩ []
        [⟨10, 11, 12, 13, none, 5⟩, ⟨20, 21, 22, 23, none, 1⟩,
         ⟨30, 31, 32, 33, none, 3⟩] 9).1
        = ⟨1, some 1, true, some 9, some 10, some 11, 12, 13, some 9⟩ := by
  refine ⟨?_, ?_, ?_, by decide⟩
  · intro truck history locs now hlocs
    have hne := insertionSort_ne_nil hlocs
    set f := (List.insertionSort fixLE locs).getLast hne with hf
    have hperm := List.perm_insertionSort fixLE locs
    refine ⟨f, hperm.mem_iff.mp (List.getLast_mem hne), ?_, ?_⟩
    · intro g hg
      exact sorted_getLast_max _ hne (List.sorted_insertionSort fixLE locs) g
        (hperm.mem_iff.mpr hg)
    · rw [sync_offline_locations_eval truck history locs now hne]
      by_cases ha : truck.is_active <;> simp [ha, hf]
  · intro truck history locs now hact hlocs
    have hne := insertionSort_ne_nil hlocs
    rw [sync_offline_locations_eval truck history locs now hne]
    simp [hact]
  · intro truck history locs now
    have hdrop : (((sync_offline_locations truck history locs now).2.1).drop
        history.length) = (List.insertionSort fixLE locs).map (fun l =>
          ({ truck_id := truck.id, latitude := l.lat, longitude := l.lng,
             speed := l.speed, heading := l.heading, accuracy := l.accuracy,
             captured_at := l.captured_at, is_offline_sync := true } : HistoryRow)) := by
      cases hg : (List.insertionSort fixLE locs).getLast? with
      | none =>
        simp only [sync_offline_locations]
        rw [hg]
        exact List.drop_left _ _
      | some last =>
        simp only [sync_offline_locations]
        rw [hg]
        exact List.drop_left _ _
    rw [hdrop]
    constructor
    · have hmap : ((List.insertionSort fixLE locs).map (fun l =>
          ({ truck_id := truck.id, latitude := l.lat, longitude := l.lng,
             speed := l.speed, heading := l.heading, accuracy := l.accuracy,
             captured_at := l.captured_at, is_offline_sync := true } : HistoryRow))).map
          HistoryRow.captured_at = (List.insertionSort fixLE locs).map Fix.captured_at := by
        simp [Function.comp]
      rw [hmap]
      exact List.Pairwise.map Fix.captured_at (fun a b hab => hab)
        (List.sorted_insertionSort fixLE locs)
    · have hmap : ((List.insertionSort fixLE locs).map (fun l =>
          ({ truck_id := truck.id, latitude := l.lat, longitude := l.lng,
             speed := l.speed, heading := l.heading, accuracy := l.accuracy,
             captured_at := l.captured_at, is_offline_sync := true } : HistoryRow))).map
          HistoryRow.captured_at = (List.insertionSort fixLE locs).map Fix.captured_at := by
        simp [Function.comp]
      rw [hmap]
      exact (List.perm_insertionSort fixLE locs).map Fix.captured_at

/-- Witness for C6 at a concrete input. -/
theorem C6_batch_sync_snapshot_policy_witness :
    ∃ f ∈ [(⟨10, 11, 12, 13, none, 5⟩ : Fix), ⟨20, 21, 22, 23, none, 1⟩,
           ⟨30, 31, 32, 33, none, 3⟩],
      (∀ g ∈ [(⟨10, 11, 12, 13, none, 5⟩ : Fix), ⟨20, 21, 22, 23, none, 1⟩,
              ⟨30, 31, 32, 33, none, 3⟩], g.captured_at ≤ f.captured_at) ∧
      (sync_offline_locations ⟨1, some 1, false, none, none, none, 0, 0, none⟩ []
        [⟨10, 11, 12, 13, none, 5⟩, ⟨20, 21, 22, 23, none, 1⟩,
         ⟨30, 31, 32, 33, none, 3⟩] 9).1.last_lat = some f.lat ∧
      (sync_offline_locations ⟨1, some 1, false, none, none, none, 0, 0, none⟩ []
        [⟨10, 11, 12, 13, none, 5⟩, ⟨20, 21, 22, 23, none, 1⟩,
         ⟨30, 31, 32, 33, none, 3⟩] 9).1.last_lng = some f.lng ∧
      (sync_offline_locations ⟨1, some 1, false, none, none, none, 0, 0, none⟩ []
        [⟨10, 11, 12, 13, none, 5⟩, ⟨20, 21, 22, 23, none, 1⟩,
         ⟨30, 31, 32, 33, none, 3⟩] 9).1.last_speed = f.speed ∧
      (sync_offline_locations ⟨1, some 1, false, none, none, none, 0, 0, none⟩ []
        [⟨10, 11, 12, 13, none, 5⟩, ⟨20, 21, 22, 23, none, 1⟩,
         ⟨30, 31, 32, 33, none, 3⟩] 9).1.last_heading = f.heading ∧
      (sync_offline_locations ⟨1, some 1, false, none, none, none, 0, 0, none⟩ []
        [⟨10, 11, 12, 13, none, 5⟩, ⟨20, 21, 22, 23, none, 1⟩,
         ⟨30, 31, 32, 33, none, 3⟩] 9).1.last_update = some 9 :=
  C6_batch_sync_snapshot_policy.1 ⟨1, some 1, false, none, none, none, 0, 0, none⟩ []
    [⟨10, 11, 12, 13, none, 5⟩, ⟨20, 21, 22, 23, none, 1⟩,
     ⟨30, 31, 32, 33, none, 3⟩] 9 (by decide)

/-! ## C7 -/

lemma pymin_eq_min (a b : ℚ) : pymin a b = min a b := by
  unfold pymin
  split_ifs with h
  · exact (min_eq_left h).symm
  · exact (min_eq_right (le_of_not_le h)).symm

lemma pymax_eq_max (a b : ℤ) : pymax a b = max a b := by
  unfold pymax
  split_ifs with h
  · exact (max_eq_left h).symm
  · exact (max_eq_right (le_of_not_le h)).symm

/-- **C7.** The ETA model: base speed `min(speed*0.7, 20)` when moving
(speed > 3), else the configured 12 km/h average; divided by the traffic
multiplier (3/2 in the 7-10 and 17-20 peak windows, 6/5 otherwise), converted
to meters per minute; the distance divided by it and rounded with a floor of
one minute (the 200 m/min fallback branch is dead because the effective speed
is always positive); the arrival time is now plus the returned minutes. -/
theorem C7_eta_model :
    ∀ (d s : ℚ) (hour now : ℕ),
      (estimate_eta d s hour now).1 =
        max 1 (pyRound (d /
          ((if s > 3 then min (s * (7/10)) 20 else (12:ℚ)) /
            get_traffic_multiplier hour * 1000 / 60)))
      ∧ get_traffic_multiplier hour =
          (if (7 ≤ hour ∧ hour < 10) ∨ (17 ≤ hour ∧ hour < 20) then 3/2 else 6/5)
      ∧ 1 ≤ (estimate_eta d s hour now).1
      ∧ (estimate_eta d s hour now).2 = now + (estimate_eta d s hour now).1.toNat := by
  intro d s hour now
  have htraffic : 0 < get_traffic_multiplier hour := by
    unfold get_traffic_multiplier TRAFFIC_PEAK_MULTIPLIER TRAFFIC_NORMAL_MULTIPLIER
    split_ifs <;> norm_num
  have hbase : 0 < (if s > 3 then min (s * (7/10)) 20 else (12:ℚ)) := by
    split_ifs with hs
    · exact lt_min (by linarith) (by norm_num)
    · norm_num
  have hspeed : 0 < (if s > 3 then min (s * (7/10)) 20 else (12:ℚ)) /
      get_traffic_multiplier hour * 1000 / 60 :=
    div_pos (mul_pos (div_pos hbase htraffic) (by norm_num)) (by norm_num)
  refine ⟨?_, ?_, ?_, rfl⟩
  · simp only [estimate_eta, pymin_eq_min, pymax_eq_max, AVG_TRUCK_SPEED]
    rw [if_pos hspeed]
  · unfold get_traffic_multiplier TRAFFIC_PEAK_MULTIPLIER TRAFFIC_NORMAL_MULTIPLIER
    split_ifs <;> first | rfl | tauto
  · simp only [estimate_eta, pymax_eq_max]
    exact le_max_left 1 _

/-! ## C10 -/

/-- **C10.** Zone auto-assignment: `find_zone_for_location` only returns an
active zone whose rectangle contains the point with inclusive bounds, and
returns `none` when no active zone contains it; registration and home-location
update assign exactly that zone's id; a home-location update resets the
last-alert fields exactly when the assigned zone changed. -/
theorem C10_zone_auto_assignment :
    (∀ (zones : List Zone) (lat lng : ℚ) (z : Zone),
      find_zone_for_location zones lat lng = some z →
      z ∈ zones ∧ z.is_active = true ∧
      z.min_lat ≤ lat ∧ lat ≤ z.max_lat ∧ z.min_lng ≤ lng ∧ lng ≤ z.max_lng)
    ∧ (∀ (zones : List Zone) (lat lng : ℚ),
      (∀ z ∈ zones, z.is_active = true →
        ¬(z.min_lat ≤ lat ∧ lat ≤ z.max_lat ∧ z.min_lng ≤ lng ∧ lng ≤ z.max_lng)) →
      find_zone_for_location zones lat lng = none)
    ∧ (∀ (zones : List Zone) (uid : ℕ) (lat lng : ℚ),
      (register_user zones uid lat lng).zone_id =
        (find_zone_for_location zones lat lng).map Zone.id)
    ∧ (∀ (user : User) (zones : List Zone) (lat lng : ℚ),
      (update_home_location user zones lat lng).zone_id =
        (find_zone_for_location zones lat lng).map Zone.id)
    ∧ (∀ (user : User) (zones : List Zone) (lat lng : ℚ),
      ((update_home_location user zones lat lng).zone_id ≠ user.zone_id →
        (update_home_location user zones lat lng).last_alert_type = none ∧
        (update_home_location user zones lat lng).last_alert_at = none)
      ∧ ((update_home_location user zones lat lng).zone_id = user.zone_id →
        (update_home_location user zones lat lng).last_alert_type =
          user.last_alert_type ∧
        (update_home_location user zones lat lng).last_alert_at =
          user.last_alert_at)) := by
  have hzid : ∀ (user : User) (zones : List Zone) (lat lng : ℚ),
      (update_home_location user zones lat lng).zone_id =
        (find_zone_for_location zones lat lng).map Zone.id := by
    intro user zones lat lng
    simp only [update_home_location]
    split_ifs <;> rfl
  refine ⟨?_, ?_, fun zones uid lat lng => rfl, hzid, ?_⟩
  · intro zones lat lng z h
    have hmem := List.mem_filter.mp (List.mem_of_find?_eq_some h)
    have hp := List.find?_some h
    simp only [is_point_in_zone, decide_eq_true_eq] at hp
    exact ⟨hmem.1, hmem.2, hp.1, hp.2.1, hp.2.2.1, hp.2.2.2⟩
  · intro zones lat lng h
    unfold find_zone_for_location
    rw [List.find?_eq_none]
    intro z hz
    have hmem := List.mem_filter.mp hz
    simp only [is_point_in_zone, decide_eq_true_eq]
    exact h z hmem.1 hmem.2
  · intro user zones lat lng
    have hz := hzid user zones lat lng
    constructor
    · intro hne
      rw [hz] at hne
      simp only [update_home_location]
      rw [if_pos (fun hx => hne hx.symm)]
      exact ⟨rfl, rfl⟩
    · intro heq
      rw [hz] at heq
      simp only [update_home_location]
      rw [if_neg (fun hx => hx heq.symm)]
      exact ⟨rfl, rfl⟩

/-- Witness for C10 at a concrete input. -/
theorem C10_zone_auto_assignment_witness :
    (⟨1, 0, 0, 10, 10, true⟩ : Zone) ∈ [(⟨1, 0, 0, 10, 10, true⟩ : Zone)] ∧
    (⟨1, 0, 0, 10, 10, true⟩ : Zone).is_active = true ∧
    (⟨1, 0, 0, 10, 10, true⟩ : Zone).min_lat ≤ 5 ∧
    (5:ℚ) ≤ (⟨1, 0, 0, 10, 10, true⟩ : Zone).max_lat ∧
    (⟨1, 0, 0, 10, 10, true⟩ : Zone).min_lng ≤ 5 ∧
    (5:ℚ) ≤ (⟨1, 0, 0, 10, 10, true⟩ : Zone).max_lng :=
  C10_zone_auto_assignment.1 [⟨1, 0, 0, 10, 10, true⟩] 5 5
    ⟨1, 0, 0, 10, 10, true⟩ (by decide)

/-! ## C9 -/

lemma registryInv_empty (zoneOf : ℕ → ℕ) : RegistryInv zoneOf emptyManager := by
  intro u
  constructor
  · intro h
    exact absurd h (by simp [emptyManager])
  · intro _
    exact ⟨rfl, fun z => by simp [emptyManager]⟩

lemma registryInv_connect {zoneOf : ℕ → ℕ} {m : Manager}
    (h : RegistryInv zoneOf m) (ws uid : ℕ) :
    RegistryInv zoneOf (m.connect ws uid (zoneOf uid)) := by
  intro u
  by_cases hu : u = uid
  · subst hu
    constructor
    · intro _
      refine ⟨by simp [Manager.connect], fun z => ?_⟩
      simp only [Manager.connect]
      by_cases hz : z = zoneOf u
      · subst hz
        simp
      · rw [if_neg hz]
        constructor
        · intro hmem
          by_cases hne : (m.user_connections u).Nonempty
          · exact absurd ((((h u).1 hne).2 z).mp hmem) hz
          · exact absurd hmem (((h u).2 hne).2 z)
        · intro hzz
          exact absurd hzz hz
    · intro hempty
      exact absurd (by simp [Manager.connect]) hempty
  · constructor
    · intro hne
      have hconn : (m.user_connections u).Nonempty := by
        simpa [Manager.connect, hu] using hne
      refine ⟨by simp [Manager.connect, hu, ((h u).1 hconn).1], fun z => ?_⟩
      simp only [Manager.connect]
      by_cases hz : z = zoneOf uid
      · rw [if_pos hz, Finset.mem_insert]
        constructor
        · rintro (rfl | hmem)
          · exact absurd rfl hu
          · exact (((h u).1 hconn).2 z).mp hmem
        · intro hzz
          exact Or.inr ((((h u).1 hconn).2 z).mpr hzz)
      · rw [if_neg hz]
        exact ((h u).1 hconn).2 z
    · intro hempty
      have hconn : ¬(m.user_connections u).Nonempty := by
        simpa [Manager.connect, hu] using hempty
      refine ⟨by simp [Manager.connect, hu, ((h u).2 hconn).1], fun z => ?_⟩
      simp only [Manager.connect]
      by_cases hz : z = zoneOf uid
      · rw [if_pos hz, Finset.mem_insert]
        rintro (rfl | hmem)
        · exact hu rfl
        · exact ((h u).2 hconn).2 z hmem
      · rw [if_neg hz]
        exact ((h u).2 hconn).2 z

lemma registryInv_removeConnection {zoneOf : ℕ → ℕ} {m : Manager}
    (h : RegistryInv zoneOf m) (ws uid : ℕ) :
    RegistryInv zoneOf (m.removeConnection ws uid) := by
  simp only [Manager.removeConnection]
  split_ifs with h1 h2
  · -- last connection removed: full cleanup
    have hz := ((h uid).1 h1).1
    intro u
    by_cases hu : u = uid
    · subst hu
      constructor
      · intro hne
        exact absurd hne (by simp)
      · intro _
        refine ⟨by simp, fun z => ?_⟩
        simp only [hz]
        by_cases hzz : z = zoneOf u
        · rw [if_pos hzz]
          exact Finset.not_mem_erase u _
        · rw [if_neg hzz]
          intro hmem
          exact hzz ((((h u).1 h1).2 z).mp hmem)
    · constructor
      · intro hne
        have hconn : (m.user_connections u).Nonempty := by simpa [hu] using hne
        refine ⟨by simp [hu, ((h u).1 hconn).1], fun z => ?_⟩
        simp only [hz]
        by_cases hzz : z = zoneOf uid
        · rw [if_pos hzz, Finset.mem_erase]
          constructor
          · intro hmem
            exact (((h u).1 hconn).2 z).mp hmem.2
          · intro hzu
            exact ⟨hu, (((h u).1 hconn).2 z).mpr hzu⟩
        · rw [if_neg hzz]
          exact ((h u).1 hconn).2 z
      · intro hempty
        have hconn : ¬(m.user_connections u).Nonempty := by simpa [hu] using hempty
        refine ⟨by simp [hu, ((h u).2 hconn).1], fun z => ?_⟩
        simp only [hz]
        by_cases hzz : z = zoneOf uid
        · rw [if_pos hzz, Finset.mem_erase]
          intro hmem
          exact ((h u).2 hconn).2 z hmem.2
        · rw [if_neg hzz]
          exact ((h u).2 hconn).2 z
  · -- a sibling connection survives: only the connection set shrinks
    have hmain : ((m.user_connections uid).erase ws).Nonempty :=
      Finset.nonempty_iff_ne_empty.mpr h2
    intro u
    by_cases hu : u = uid
    · subst hu
      constructor
      · intro _
        exact ((h u).1 h1)
      · intro hne
        exact absurd (by simpa using hmain) hne
    · constructor
      · intro hne
        have hconn : (m.user_connections u).Nonempty := by simpa [hu] using hne
        exact (h u).1 hconn
      · intro hempty
        have hconn : ¬(m.user_connections u).Nonempty := by simpa [hu] using hempty
        exact (h u).2 hconn
  · exact h

lemma registryInv_applyOps (zoneOf : ℕ → ℕ) (ops : List RegistryOp)
    (hv : validOps zoneOf ops) :
    ∀ m : Manager, RegistryInv zoneOf m → RegistryInv zoneOf (applyOps m ops) := by
  induction ops with
  | nil => exact fun m hm => hm
  | cons op ops ih =>
    intro m hm
    have hv' : validOps zoneOf ops := fun o ho => hv o (List.mem_cons_of_mem _ ho)
    have hstep : RegistryInv zoneOf (applyOp m op) := by
      cases op with
      | connect ws uid zid =>
        obtain rfl : zid = zoneOf uid := hv _ (List.mem_cons_self _ _) ws uid zid rfl
        exact registryInv_connect hm ws uid
      | removeConn ws uid => exact registryInv_removeConnection hm ws uid
    exact ih hv' (applyOp m op) hstep

/-- **C9 counterexample.** Connecting the same user under two different zones
(which the endpoint produces when the user's zone changes between two
sessions) leaves the user in two zones' sets at once, so "appears in exactly
one zone's set" fails for an unrestricted sequence of registry operations. -/
theorem C9_registry_two_zones_counterexample :
    10 ∈ (applyOps emptyManager
      [RegistryOp.connect 1 10 100, RegistryOp.connect 2 10 200]).zone_users 100
    ∧ 10 ∈ (applyOps emptyManager
      [RegistryOp.connect 1 10 100, RegistryOp.connect 2 10 200]).zone_users 200
    ∧ (100 : ℕ) ≠ 200 :=
  ⟨by decide, by decide, by decide⟩

/-- **C9 (amended).** When every connect for a user carries one fixed zone
(`zoneOf`), the registry invariant holds after any sequence of connects and
removals (disconnects and send-failure prunings both go through
`_remove_connection`): a user appears in some zone's set iff it has a live
connection, in at most one zone's set, namely `zoneOf u`; and a removal that
leaves a sibling connection shrinks only that user's connection set, leaving
the other users' connections and both zone maps untouched. -/
theorem C9_registry_consistency_fixed_zone :
    (∀ (zoneOf : ℕ → ℕ) (ops : List RegistryOp), validOps zoneOf ops →
      ∀ u : ℕ,
        ((∃ z, u ∈ (applyOps emptyManager ops).zone_users z) ↔
          ((applyOps emptyManager ops).user_connections u).Nonempty)
        ∧ (∀ z1 z2, u ∈ (applyOps emptyManager ops).zone_users z1 →
            u ∈ (applyOps emptyManager ops).zone_users z2 → z1 = z2)
        ∧ (((applyOps emptyManager ops).user_connections u).Nonempty →
            u ∈ (applyOps emptyManager ops).zone_users (zoneOf u)))
    ∧ (∀ (m : Manager) (ws uid : ℕ),
        ((m.user_connections uid).erase ws).Nonempty →
        (m.removeConnection ws uid).user_connections uid =
          (m.user_connections uid).erase ws
        ∧ (∀ v, v ≠ uid →
            (m.removeConnection ws uid).user_connections v = m.user_connections v)
        ∧ (m.removeConnection ws uid).user_zone = m.user_zone
        ∧ (m.removeConnection ws uid).zone_users = m.zone_users) := by
  constructor
  · intro zoneOf ops hv u
    have hinv := registryInv_applyOps zoneOf ops hv emptyManager
      (registryInv_empty zoneOf) u
    refine ⟨?_, ?_, ?_⟩
    · constructor
      · rintro ⟨z, hz⟩
        by_cases hne : ((applyOps emptyManager ops).user_connections u).Nonempty
        · exact hne
        · exact absurd hz ((hinv.2 hne).2 z)
      · intro hne
        exact ⟨zoneOf u, ((hinv.1 hne).2 _).mpr rfl⟩
    · intro z1 z2 h1 h2
      by_cases hne : ((applyOps emptyManager ops).user_connections u).Nonempty
      · rw [((hinv.1 hne).2 z1).mp h1, ((hinv.1 hne).2 z2).mp h2]
      · exact absurd h1 ((hinv.2 hne).2 z1)
    · intro hne
      exact ((hinv.1 hne).2 _).mpr rfl
  · intro m ws uid hne
    have h1 : (m.user_connections uid).Nonempty :=
      Finset.Nonempty.mono (Finset.erase_subset _ _) hne
    have h2 : ¬((m.user_connections uid).erase ws = ∅) :=
      Finset.nonempty_iff_ne_empty.mp hne
    simp only [Manager.removeConnection]
    rw [if_pos h1, if_neg h2]
    exact ⟨by simp, fun v hv => by simp [hv], rfl, rfl⟩

/-- Witness for the amended C9 at concrete inputs. -/
theorem C9_registry_consistency_fixed_zone_witness :
    ((∃ z, 10 ∈ (applyOps emptyManager [RegistryOp.connect 1 10 100]).zone_users z) ↔
      ((applyOps emptyManager [RegistryOp.connect 1 10 100]).user_connections 10).Nonempty)
    ∧ (∀ z1 z2,
        10 ∈ (applyOps emptyManager [RegistryOp.connect 1 10 100]).zone_users z1 →
        10 ∈ (applyOps emptyManager [RegistryOp.connect 1 10 100]).zone_users z2 →
        z1 = z2)
    ∧ (((applyOps emptyManager [RegistryOp.connect 1 10 100]).user_connections 10).Nonempty →
        10 ∈ (applyOps emptyManager [RegistryOp.connect 1 10 100]).zone_users 100) :=
  C9_registry_consistency_fixed_zone.1 (fun _ => 100) [RegistryOp.connect 1 10 100]
    (by
      intro op hop ws uid zid heq
      rw [List.mem_singleton] at hop
      subst hop
      cases heq
      rfl)
    10

/-! ## C8 -/

lemma sum_map_eq_one {α : Type} (g : α → ℕ) :
    ∀ (l : List α) (u : α), l.Nodup → u ∈ l → (∀ a ∈ l, a ≠ u → g a = 0) →
      g u = 1 → (l.map g).sum = 1 := by
  intro l
  induction l with
  | nil =>
    intro u _ hu
    exact absurd hu (List.not_mem_nil u)
  | cons a l ih =>
    intro u hnd hu hz hg1
    rcases List.mem_cons.mp hu with rfl | hu2
    · simp only [List.map_cons, List.sum_cons, hg1]
      have hall : ∀ b ∈ l, g b = 0 := by
        intro b hb
        refine hz b (List.mem_cons_of_mem _ hb) ?_
        rintro rfl
        exact (List.nodup_cons.mp hnd).1 hb
      have hsum : (l.map g).sum = 0 := by
        rw [List.sum_eq_zero]
        intro x hx
        obtain ⟨b, hb, rfl⟩ := List.mem_map.mp hx
        exact hall b hb
      rw [hsum]
    · have ha0 : g a = 0 := by
        refine hz a (List.mem_cons_self _ _) ?_
        rintro rfl
        exact (List.nodup_cons.mp hnd).1 hu2
      simp only [List.map_cons, List.sum_cons, ha0, Nat.zero_add]
      exact ih u (List.nodup_cons.mp hnd).2 hu2
        (fun b hb => hz b (List.mem_cons_of_mem _ hb)) hg1

lemma countP_beq_eq_one_of_nodup {α : Type} [BEq α] [LawfulBEq α] :
    ∀ (l : List α) (c : α), l.Nodup → c ∈ l →
      l.countP (fun x => x == c) = 1 := by
  intro l
  induction l with
  | nil =>
    intro c _ hc
    exact absurd hc (List.not_mem_nil c)
  | cons a l ih =>
    intro c hnd hc
    rw [List.countP_cons]
    rcases List.mem_cons.mp hc with rfl | hc2
    · have h0 : l.countP (fun x => x == c) = 0 := by
        rw [List.countP_eq_zero]
        intro x hx
        simp only [beq_iff_eq]
        rintro rfl
        exact (List.nodup_cons.mp hnd).1 hx
      simp [h0]
    · have ha : (a == c) = false := by
        rw [beq_eq_false_iff_ne]
        rintro rfl
        exact (List.nodup_cons.mp hnd).1 hc2
      rw [ih c (List.nodup_cons.mp hnd).2 hc2, ha]
      simp

/-- **C8.** The fix-triggered zone broadcast: with zero connected users in the
zone it returns before any store access and sends nothing; with a connected
user, it delivers exactly one `location_update` message per live connection of
each active zone user that is registered in the connection manager. -/
theorem C8_broadcast_zero_listener_guard :
    (∀ (m : Manager) (trucks : List Truck) (users : List User)
      (truck_id zone_id : ℕ),
      m.get_zone_user_count zone_id = 0 →
      broadcast_truck_location m trucks users truck_id zone_id = (false, []))
    ∧ (∀ (m : Manager) (trucks : List Truck) (users : List User)
        (truck_id zone_id : ℕ) (u : User) (c : ℕ),
      (users.map User.id).Nodup →
      m.get_zone_user_count zone_id ≠ 0 →
      (trucks.find? (fun t => t.id == truck_id)).isSome = true →
      u ∈ users → u.zone_id = some zone_id → u.is_active = true →
      c ∈ m.user_connections u.id →
      ((broadcast_truck_location m trucks users truck_id zone_id).2.countP
        (fun msg => msg == (u.id, c))) = 1) := by
  constructor
  · intro m trucks users truck_id zone_id h
    unfold broadcast_truck_location
    rw [if_pos h]
  · intro m trucks users truck_id zone_id u c hnodup hcount hfind hu hz ha hc
    unfold broadcast_truck_location
    rw [if_neg hcount]
    obtain ⟨tr, htr⟩ := Option.isSome_iff_exists.mp hfind
    rw [htr]
    dsimp only
    rw [List.countP_flatMap]
    have husers : users.Nodup := List.Nodup.of_map _ hnodup
    refine sum_map_eq_one _ _ u (List.Nodup.filter _ husers) ?_ ?_ ?_
    · exact List.mem_filter.mpr ⟨hu, by simp [hz, ha]⟩
    · intro v hv hvne
      have hvid : v.id ≠ u.id := by
        intro heq
        exact hvne (List.inj_on_of_nodup_map hnodup
          (List.mem_filter.mp hv).1 hu heq)
      simp only [Function.comp]
      by_cases hve : m.user_connections v.id = ∅
      · rw [if_pos hve]
        rfl
      · rw [if_neg hve]
        rw [List.countP_eq_zero]
        intro x hx
        obtain ⟨cc, -, rfl⟩ := List.mem_map.mp hx
        simp only [beq_iff_eq, Prod.mk.injEq]
        rintro ⟨h1, -⟩
        exact hvid h1
    · simp only [Function.comp]
      rw [if_neg (Finset.nonempty_iff_ne_empty.mp ⟨c, hc⟩)]
      have hinj : Function.Injective (fun cc : ℕ => (u.id, cc)) := by
        intro x y hxy
        exact congrArg Prod.snd hxy
      refine countP_beq_eq_one_of_nodup _ (u.id, c)
        (List.Nodup.map hinj (Finset.sort_nodup _ _)) ?_
      exact List.mem_map.mpr
        ⟨c, (Finset.mem_sort (fun a b : ℕ => a ≤ b)).mpr hc, rfl⟩

/-- Witness for C8 at concrete inputs: one user connected with one session
receives exactly one message; the guard conjunct at a zone with no listeners. -/
theorem C8_broadcast_zero_listener_guard_witness :
    broadcast_truck_location
      ⟨fun v => if v = 1 then {5} else ∅, fun v => if v = 1 then some 2 else none,
       fun z => if z = 2 then {1} else ∅⟩
      [⟨1, some 2, true, some 0, some 0, some 0, 0, 0, some 0⟩]
      [⟨1, some 2, some 0, some 0, true, 500, "push", none, none, none, true⟩]
      1 3 = (false, []) ∧
    ((broadcast_truck_location
      ⟨fun v => if v = 1 then {5} else ∅, fun v => if v = 1 then some 2 else none,
       fun z => if z = 2 then {1} else ∅⟩
      [⟨1, some 2, true, some 0, some 0, some 0, 0, 0, some 0⟩]
      [⟨1, some 2, some 0, some 0, true, 500, "push", none, none, none, true⟩]
      1 2).2.countP
        (fun msg => msg ==
          ((⟨1, some 2, some 0, some 0, true, 500, "push", none, none, none, true⟩ : User).id,
           5))) = 1 :=
  ⟨C8_broadcast_zero_listener_guard.1
    ⟨fun v => if v = 1 then {5} else ∅, fun v => if v = 1 then some 2 else none,
     fun z => if z = 2 then {1} else ∅⟩
    [⟨1, some 2, true, some 0, some 0, some 0, 0, 0, some 0⟩]
    [⟨1, some 2, some 0, some 0, true, 500, "push", none, none, none, true⟩]
    1 3 (by decide),
   C8_broadcast_zero_listener_guard.2
    ⟨fun v => if v = 1 then {5} else ∅, fun v => if v = 1 then some 2 else none,
     fun z => if z = 2 then {1} else ∅⟩
    [⟨1, some 2, true, some 0, some 0, some 0, 0, 0, some 0⟩]
    [⟨1, some 2, some 0, some 0, true, 500, "push", none, none, none, true⟩]
    1 2
    ⟨1, some 2, some 0, some 0, true, 500, "push", none, none, none, true⟩
    5 (by decide) (by decide) (by decide) (by decide) (by decide) (by decide)
    (by decide)⟩

/-- Witness for C2 at concrete inputs. -/
theorem C2_alert_preconditions_and_tier_selection_witness :
    check_user_alert []
      ⟨1, some 1, some 0, some 0, false, 500, "push", none, none, none, true⟩
      ⟨1, some 1, true, some 2, some 0, some 0, 0, 0, some 2⟩ 50 7 = none ∧
    (compute_alert_type
      ⟨1, some 1, some 0, some 0, true, 500, "push", none, none, none, true⟩
      250 = some "arriving") :=
  ⟨C2_alert_preconditions_and_tier_selection.1 _ _ _ 50 7 rfl,
   (C2_alert_preconditions_and_tier_selection.2.2.2.2.1 _ 250).mpr
     ⟨by norm_num, by norm_num⟩⟩

end GarbageTruck
